import Mathlib

/-!
Verification of `codex-rs/common/src/model_presets.rs`: the preset
resolution service.  The Rust source is shallowly embedded below:

* the serde-derived deserializers for the registry response become
  explicit recursive parsers over a `Json` value type;
* the static `PRESETS` constant is transcribed verbatim;
* the stateful mapping loop of `fetch_oracle_code_assist_models` becomes
  structural recursion carrying the `is_default` flag;
* the HTTP round trip is abstracted by a `transport` function argument
  (url, bearer token ↦ response or transport error), and the Rust panic
  in the blocking entry point is modelled by `Option.none`.
-/

namespace ModelPresets

/-- Modelled from the spec: the authentication-mode enumeration lives in an
external crate (`codex_app_server_protocol::AuthMode`); it is a closed
enumeration containing first-party modes and the alternate identity
provider mode `OCA`.  The code under verification uses only equality with
`OCA`. -/
inductive AuthMode where
  | ApiKey
  | ChatGPT
  | OCA
deriving DecidableEq, Repr

/-- Modelled from the spec: the closed reasoning-effort enumeration
(`codex_core::protocol_config_types::ReasoningEffort`, an external crate):
Minimal, Low, Medium, High, with no semantics beyond identity. -/
inductive ReasoningEffort where
  | Minimal
  | Low
  | Medium
  | High
deriving DecidableEq, Repr, Fintype

/-- A reasoning effort option that can be surfaced for a model
(`ReasoningEffortPreset` in the source). -/
structure ReasoningEffortPreset where
  effort : ReasoningEffort
  description : String
deriving DecidableEq, Repr

/-- Metadata describing a supported model (`ModelPreset` in the source).
The Rust `&'static str` and `&'static [..]` fields become `String` and
`List`; by-value equality is unchanged. -/
structure ModelPreset where
  id : String
  model : String
  display_name : String
  description : String
  default_reasoning_effort : Option ReasoningEffort
  supported_reasoning_efforts : List ReasoningEffortPreset
  is_default : Bool
deriving DecidableEq, Repr

/-- JSON values, the shape `serde_json` deserializes from.  Numbers are
integers (`Int`): the schema under verification only reads `i64` fields. -/
inductive Json where
  | null
  | bool (b : Bool)
  | num (n : Int)
  | str (s : String)
  | arr (elems : List Json)
  | obj (fields : List (String × Json))

/-- `ModelInfoLiteLLMParams`: both fields are required (non-`Option`) in
the serde derive. -/
structure ModelInfoLiteLLMParams where
  max_tokens : Int
  model : String
deriving DecidableEq, Repr

/-- `ModelInfoParams`: `context_window` is a required `i64`; every other
field is `Option<String>`. -/
structure ModelInfoParams where
  banner : Option String
  context_window : Int
  description : Option String
  labels : Option String
  survey_content : Option String
  survey_id : Option String
  version : Option String
deriving DecidableEq, Repr

/-- `ModelInfo`: one record of the registry response. -/
structure ModelInfo where
  model_info : ModelInfoParams
  model_name : String
  litellm_params : ModelInfoLiteLLMParams
deriving DecidableEq, Repr

/-- `ModelInfoResponse`: the top-level registry response shape. -/
structure ModelInfoResponse where
  object : Option String
  data : List ModelInfo
deriving DecidableEq, Repr

/-- `true` on `.ok`, `false` on `.error`. -/
def exOk : Except ε α → Bool
  | .ok _ => true
  | .error _ => false

/-- Field lookup in a JSON object (first occurrence, as in a map access). -/
def Json.lookup (j : Json) (k : String) : Option Json :=
  match j with
  | .obj fields => fields.lookup k
  | _ => none

/-- serde semantics of a required `String` field: missing or non-string
fails. -/
def reqStr (fields : List (String × Json)) (k : String) : Except String String :=
  match fields.lookup k with
  | some (.str s) => .ok s
  | some _ => .error ("invalid type for field " ++ k)
  | none => .error ("missing field " ++ k)

/-- serde semantics of a required `i64` field: missing or non-number
fails. -/
def reqInt (fields : List (String × Json)) (k : String) : Except String Int :=
  match fields.lookup k with
  | some (.num n) => .ok n
  | some _ => .error ("invalid type for field " ++ k)
  | none => .error ("missing field " ++ k)

/-- serde semantics of an `Option<String>` field: missing or `null` gives
`none`; a string gives `some`; any other type fails. -/
def optStr (fields : List (String × Json)) (k : String) : Except String (Option String) :=
  match fields.lookup k with
  | none => .ok none
  | some .null => .ok none
  | some (.str s) => .ok (some s)
  | some _ => .error ("invalid type for field " ++ k)

/-- Deserializer for `ModelInfoLiteLLMParams` (unknown fields ignored, as
serde does by default). -/
def parseLiteLLMParams : Json → Except String ModelInfoLiteLLMParams
  | .obj fields =>
    match reqInt fields "max_tokens" with
    | .error e => .error e
    | .ok mt =>
      match reqStr fields "model" with
      | .error e => .error e
      | .ok m => .ok { max_tokens := mt, model := m }
  | _ => .error "invalid type: expected litellm_params object"

/-- Deserializer for `ModelInfoParams`. -/
def parseModelInfoParams : Json → Except String ModelInfoParams
  | .obj fields =>
    match optStr fields "banner" with
    | .error e => .error e
    | .ok banner =>
      match reqInt fields "context_window" with
      | .error e => .error e
      | .ok cw =>
        match optStr fields "description" with
        | .error e => .error e
        | .ok description =>
          match optStr fields "labels" with
          | .error e => .error e
          | .ok labels =>
            match optStr fields "survey_content" with
            | .error e => .error e
            | .ok sc =>
              match optStr fields "survey_id" with
              | .error e => .error e
              | .ok sid =>
                match optStr fields "version" with
                | .error e => .error e
                | .ok version =>
                  .ok { banner := banner, context_window := cw,
                        description := description, labels := labels,
                        survey_content := sc, survey_id := sid,
                        version := version }
  | _ => .error "invalid type: expected model_info object"

/-- Deserializer for one `ModelInfo` record. -/
def parseModelInfo : Json → Except String ModelInfo
  | .obj fields =>
    match fields.lookup "model_info" with
    | none => .error "missing field model_info"
    | some mij =>
      match parseModelInfoParams mij with
      | .error e => .error e
      | .ok mi =>
        match reqStr fields "model_name" with
        | .error e => .error e
        | .ok name =>
          match fields.lookup "litellm_params" with
          | none => .error "missing field litellm_params"
          | some lpj =>
            match parseLiteLLMParams lpj with
            | .error e => .error e
            | .ok lp => .ok { model_info := mi, model_name := name, litellm_params := lp }
  | _ => .error "invalid type: expected record object"

/-- Deserializer for the `data` array, element by element. -/
def parseModelInfoList : List Json → Except String (List ModelInfo)
  | [] => .ok []
  | j :: rest =>
    match parseModelInfo j with
    | .error e => .error e
    | .ok mi =>
      match parseModelInfoList rest with
      | .error e => .error e
      | .ok ms => .ok (mi :: ms)

/-- Deserializer for the top-level `ModelInfoResponse`: `object` is an
optional string, `data` is a required array of records. -/
def parseModelInfoResponse : Json → Except String ModelInfoResponse
  | .obj fields =>
    match optStr fields "object" with
    | .error e => .error e
    | .ok o =>
      match fields.lookup "data" with
      | none => .error "missing field data"
      | some (.arr xs) =>
        match parseModelInfoList xs with
        | .error e => .error e
        | .ok ms => .ok { object := o, data := ms }
      | some _ => .error "invalid type for field data"
  | _ => .error "invalid type: expected response object"

/-- The static `PRESETS` constant, transcribed from the source. -/
def PRESETS : List ModelPreset := [
  { id := "gpt-5-codex",
    model := "gpt-5-codex",
    display_name := "gpt-5-codex",
    description := "Optimized for coding tasks with many tools.",
    default_reasoning_effort := some ReasoningEffort.Medium,
    supported_reasoning_efforts := [
      { effort := ReasoningEffort.Low,
        description := "Fastest responses with limited reasoning" },
      { effort := ReasoningEffort.Medium,
        description := "Dynamically adjusts reasoning based on the task" },
      { effort := ReasoningEffort.High,
        description := "Maximizes reasoning depth for complex or ambiguous problems" }],
    is_default := true },
  { id := "gpt-5",
    model := "gpt-5",
    display_name := "gpt-5",
    description := "Broad world knowledge with strong general reasoning.",
    default_reasoning_effort := some ReasoningEffort.Medium,
    supported_reasoning_efforts := [
      { effort := ReasoningEffort.Minimal,
        description := "Fastest responses with little reasoning" },
      { effort := ReasoningEffort.Low,
        description := "Balances speed with some reasoning; useful for straightforward queries and short explanations" },
      { effort := ReasoningEffort.Medium,
        description := "Provides a solid balance of reasoning depth and latency for general-purpose tasks" },
      { effort := ReasoningEffort.High,
        description := "Maximizes reasoning depth for complex or ambiguous problems" }],
    is_default := false }]

/-- The loop body of `fetch_oracle_code_assist_models`: build one preset
from one record, with the given `is_default` flag. -/
def recordToPreset (isDef : Bool) (mi : ModelInfo) : ModelPreset :=
  { id := mi.litellm_params.model,
    model := mi.litellm_params.model,
    display_name := mi.model_name,
    description := mi.model_info.description.getD "",
    default_reasoning_effort := none,
    supported_reasoning_efforts := [],
    is_default := isDef }

/-- The mapping loop: the mutable `is_default` flag starts as the argument
and is set to `false` after the first record. -/
def mapModelsAux (isDef : Bool) : List ModelInfo → List ModelPreset
  | [] => []
  | mi :: rest => recordToPreset isDef mi :: mapModelsAux false rest

/-- The whole mapping loop of `fetch_oracle_code_assist_models`
(`is_default` starts `true`). -/
def mapModels (data : List ModelInfo) : List ModelPreset :=
  mapModelsAux true data

/-- `str::trim_end_matches('/')`: strip all trailing slashes. -/
def trimEndSlashes (s : String) : String :=
  s.dropRightWhile (· = '/')

/-- `reqwest::StatusCode::is_success`: 2xx. -/
def isSuccess (status : Nat) : Bool :=
  decide (200 ≤ status) && decide (status < 300)

/-- An HTTP response as seen by this module: a status code and a JSON
body. -/
structure HttpResponse where
  status : Nat
  body : Json

/-- A transport collaborator: url and bearer token to a response, or a
transport-level error (propagated by the `?` on `send()`). -/
def Transport : Type := String → String → Except String HttpResponse

/-- `fetch_oracle_code_assist_models`, with the HTTP client abstracted by
`transport`.  Mirrors the source order: build the url, send, check the
status, deserialize, map. -/
def fetch_oracle_code_assist_models (transport : Transport)
    (base_url access_token : String) : Except String (List ModelPreset) :=
  let url := trimEndSlashes base_url ++ "/v1/model/info"
  match transport url access_token with
  | .error e => .error e
  | .ok response =>
    if isSuccess response.status = false then
      .error ("API request failed with status: " ++ toString response.status)
    else
      match parseModelInfoResponse response.body with
      | .error e => .error e
      | .ok r => .ok (mapModels r.data)

/-- `builtin_model_presets_sync`.  The Rust function panics on
`Some(AuthMode::OCA)`; the panic is modelled as `none`, a normal return
as `some`. -/
def builtin_model_presets_sync (auth_mode : Option AuthMode) : Option (List ModelPreset) :=
  if auth_mode = some AuthMode.OCA then
    none
  else
    some PRESETS

/-- `builtin_model_presets` (the async entry point), with the HTTP client
abstracted by `transport`. -/
def builtin_model_presets (transport : Transport) (auth_mode : Option AuthMode)
    (base_url access_token : Option String) : Except String (List ModelPreset) :=
  if auth_mode = some AuthMode.OCA then
    fetch_oracle_code_assist_models transport (base_url.getD "") (access_token.getD "")
  else
    .ok PRESETS

/-- The success path of the fetch after the HTTP layer: deserialize a body
and map records to presets (the `parse_and_map` of the spec). -/
def parseAndMap (body : Json) : Except String (List ModelPreset) :=
  match parseModelInfoResponse body with
  | .error e => .error e
  | .ok r => .ok (mapModels r.data)

/-- Number of presets flagged as default in a catalog. -/
def countDefaults (ps : List ModelPreset) : Nat :=
  (ps.filter (·.is_default)).length

/-! ### Spec-side schema predicates

`wellFormedResponse` is written from the spec's description of the schema
(amended by the required `max_tokens` / `context_window` fields), to be
compared with the deserializer above.  `claimRequiredOk` states the schema
exactly as claim C3 words it: only the `data` list, the per-record model
name and the per-record backend slug are required. -/

/-- Spec side: field `k`, if present, is `null` or a string. -/
def wfOptStr (fields : List (String × Json)) (k : String) : Bool :=
  match fields.lookup k with
  | none => true
  | some .null => true
  | some (.str _) => true
  | some _ => false

/-- Spec side: field `k` is present and a string. -/
def wfReqStr (fields : List (String × Json)) (k : String) : Bool :=
  match fields.lookup k with
  | some (.str _) => true
  | _ => false

/-- Spec side: field `k` is present and an integer. -/
def wfReqInt (fields : List (String × Json)) (k : String) : Bool :=
  match fields.lookup k with
  | some (.num _) => true
  | _ => false

/-- Spec side: a well-formed `litellm_params` block: an object with an
integer `max_tokens` and a string `model` (backend slug). -/
def wfLite : Json → Bool
  | .obj fields => wfReqInt fields "max_tokens" && wfReqStr fields "model"
  | _ => false

/-- Spec side: a well-formed `model_info` block: an object with an integer
`context_window`; the other fields are optional strings. -/
def wfParams : Json → Bool
  | .obj fields =>
    wfOptStr fields "banner" && wfReqInt fields "context_window"
      && wfOptStr fields "description" && wfOptStr fields "labels"
      && wfOptStr fields "survey_content" && wfOptStr fields "survey_id"
      && wfOptStr fields "version"
  | _ => false

/-- Spec side: a well-formed record: an object with a well-formed
`model_info` block, a string `model_name` and a well-formed
`litellm_params` block. -/
def wfRecord : Json → Bool
  | .obj fields =>
    (match fields.lookup "model_info" with
     | some mij => wfParams mij
     | none => false)
      && wfReqStr fields "model_name"
      && (match fields.lookup "litellm_params" with
          | some lpj => wfLite lpj
          | none => false)
  | _ => false

/-- Spec side: a well-formed registry response: an object whose `data`
field is a list of well-formed records; `object`, if present, is a string
or `null`; unknown fields are not inspected at all. -/
def wellFormedResponse : Json → Bool
  | .obj fields =>
    wfOptStr fields "object"
      && (match fields.lookup "data" with
          | some (.arr xs) => xs.all wfRecord
          | _ => false)
  | _ => false

/-- The required fields exactly as claim C3 lists them: the `data` list,
each record's `model_name`, and each record's backend slug inside
`litellm_params`. -/
def claimRecordOk : Json → Bool
  | .obj fields =>
    wfReqStr fields "model_name"
      && (match fields.lookup "litellm_params" with
          | some (.obj ps) => wfReqStr ps "model"
          | _ => false)
  | _ => false

/-- Top-level shape as claim C3 words it: an object with a `data` list of
records satisfying `claimRecordOk`. -/
def claimRequiredOk : Json → Bool
  | .obj fields =>
    match fields.lookup "data" with
    | some (.arr xs) => xs.all claimRecordOk
    | _ => false
  | _ => false

/-! ### Concrete registry responses used as test inputs -/

/-- The single record exactly as claim C2 writes it: only `model_name`,
`litellm_params.model` and `model_info.description` are given. -/
def c2RawRecord : Json :=
  .obj [("model_name", .str "foo"),
        ("litellm_params", .obj [("model", .str "foo-backend")]),
        ("model_info", .obj [("description", .str "bar")])]

/-- A response whose data list holds exactly `c2RawRecord`. -/
def c2RawResponse : Json := .obj [("data", .arr [c2RawRecord])]

/-- The C2 record completed with the two further fields the serde schema
requires: `litellm_params.max_tokens` and `model_info.context_window`. -/
def c2FullRecord : Json :=
  .obj [("model_name", .str "foo"),
        ("litellm_params", .obj [("max_tokens", .num 128),
                                 ("model", .str "foo-backend")]),
        ("model_info", .obj [("context_window", .num 4096),
                             ("description", .str "bar")])]

/-- A response whose data list holds exactly `c2FullRecord`. -/
def c2FullResponse : Json := .obj [("data", .arr [c2FullRecord])]

/-- A record satisfying every requirement claim C3 lists (model name and
backend slug present as strings, data list present) and carrying a
well-typed `model_info`, but missing `litellm_params.max_tokens`. -/
def c3Record : Json :=
  .obj [("model_name", .str "m"),
        ("litellm_params", .obj [("model", .str "b")]),
        ("model_info", .obj [("context_window", .num 10)])]

/-- A response whose data list holds exactly `c3Record`. -/
def c3Response : Json := .obj [("data", .arr [c3Record])]

/-- A parsed record whose backend slug is `"x"`; used to exhibit duplicate
ids in a remotely mapped catalog. -/
def dupRecord : ModelInfo :=
  { model_info := { banner := none, context_window := 1, description := none,
                    labels := none, survey_content := none, survey_id := none,
                    version := none },
    model_name := "x-name",
    litellm_params := { max_tokens := 1, model := "x" } }

/-! ### Parser / schema equivalence lemmas -/

theorem exOk_reqStr (fields : List (String × Json)) (k : String) :
    exOk (reqStr fields k) = wfReqStr fields k := by
  unfold reqStr wfReqStr
  cases h : fields.lookup k with
  | none => rfl
  | some j => cases j <;> rfl

theorem exOk_reqInt (fields : List (String × Json)) (k : String) :
    exOk (reqInt fields k) = wfReqInt fields k := by
  unfold reqInt wfReqInt
  cases h : fields.lookup k with
  | none => rfl
  | some j => cases j <;> rfl

theorem exOk_optStr (fields : List (String × Json)) (k : String) :
    exOk (optStr fields k) = wfOptStr fields k := by
  unfold optStr wfOptStr
  cases h : fields.lookup k with
  | none => rfl
  | some j => cases j <;> rfl

theorem exOk_parseLiteLLMParams (j : Json) :
    exOk (parseLiteLLMParams j) = wfLite j := by
  cases j with
  | obj fields =>
    simp only [parseLiteLLMParams, wfLite]
    rw [← exOk_reqInt, ← exOk_reqStr]
    cases hmt : reqInt fields "max_tokens" with
    | error e => simp [exOk, hmt]
    | ok mt =>
      cases hm : reqStr fields "model" with
      | error e => simp [exOk, hm]
      | ok m => simp [exOk, hm]
  | null => rfl
  | bool b => rfl
  | num n => rfl
  | str s => rfl
  | arr xs => rfl

theorem exOk_parseModelInfoParams (j : Json) :
    exOk (parseModelInfoParams j) = wfParams j := by
  cases j with
  | obj fields =>
    simp only [parseModelInfoParams, wfParams]
    rw [← exOk_reqInt, ← exOk_optStr fields "banner",
      ← exOk_optStr fields "description", ← exOk_optStr fields "labels",
      ← exOk_optStr fields "survey_content", ← exOk_optStr fields "survey_id",
      ← exOk_optStr fields "version"]
    cases h1 : optStr fields "banner" <;> simp [exOk, h1]
    cases h2 : reqInt fields "context_window" <;> simp [exOk, h2]
    cases h3 : optStr fields "description" <;> simp [exOk, h3]
    cases h4 : optStr fields "labels" <;> simp [exOk, h4]
    cases h5 : optStr fields "survey_content" <;> simp [exOk, h5]
    cases h6 : optStr fields "survey_id" <;> simp [exOk, h6]
    cases h7 : optStr fields "version" <;> simp [exOk, h7]
  | null => rfl
  | bool b => rfl
  | num n => rfl
  | str s => rfl
  | arr xs => rfl

theorem exOk_parseModelInfo (j : Json) :
    exOk (parseModelInfo j) = wfRecord j := by
  cases j with
  | obj fields =>
    simp only [parseModelInfo, wfRecord]
    cases hmi : fields.lookup "model_info" with
    | none => simp [exOk]
    | some mij =>
      cases h1 : parseModelInfoParams mij <;>
        simp [exOk, h1, ← exOk_parseModelInfoParams, ← exOk_reqStr]
      cases h2 : reqStr fields "model_name" <;> simp [exOk, h2]
      cases hlp : fields.lookup "litellm_params" with
      | none => simp [exOk]
      | some lpj =>
        cases h3 : parseLiteLLMParams lpj <;>
          simp [exOk, h3, ← exOk_parseLiteLLMParams]
  | null => rfl
  | bool b => rfl
  | num n => rfl
  | str s => rfl
  | arr xs => rfl

theorem exOk_parseModelInfoList (xs : List Json) :
    exOk (parseModelInfoList xs) = xs.all wfRecord := by
  induction xs with
  | nil => rfl
  | cons j rest ih =>
    simp only [parseModelInfoList, List.all_cons]
    rw [← exOk_parseModelInfo, ← ih]
    cases h1 : parseModelInfo j <;> simp [exOk, h1]
    cases h2 : parseModelInfoList rest <;> simp [exOk, h2]

theorem exOk_parseModelInfoResponse (j : Json) :
    exOk (parseModelInfoResponse j) = wellFormedResponse j := by
  cases j with
  | obj fields =>
    simp only [parseModelInfoResponse, wellFormedResponse]
    rw [← exOk_optStr]
    cases h1 : optStr fields "object" <;> simp [exOk, h1]
    cases hd : fields.lookup "data" with
    | none => simp [exOk]
    | some dj =>
      cases dj with
      | arr xs =>
        cases h2 : parseModelInfoList xs <;>
          simp [exOk, h2, ← exOk_parseModelInfoList]
      | null => simp [exOk]
      | bool b => simp [exOk]
      | num n => simp [exOk]
      | str s => simp [exOk]
      | obj gs => simp [exOk]
  | null => rfl
  | bool b => rfl
  | num n => rfl
  | str s => rfl
  | arr xs => rfl

/-! ### Lemmas about the mapping loop -/

theorem length_mapModelsAux (isDef : Bool) (data : List ModelInfo) :
    (mapModelsAux isDef data).length = data.length := by
  induction data generalizing isDef with
  | nil => rfl
  | cons mi rest ih => simp [mapModelsAux, ih]

theorem getElem?_mapModelsAux (isDef : Bool) (data : List ModelInfo) (i : Nat) :
    (mapModelsAux isDef data)[i]? =
      (data[i]?).map (recordToPreset (isDef && decide (i = 0))) := by
  induction data generalizing isDef i with
  | nil => simp [mapModelsAux]
  | cons mi rest ih =>
    cases i with
    | zero => simp [mapModelsAux]
    | succ n => simp [mapModelsAux, ih]

theorem countDefaults_mapModelsAux_false (data : List ModelInfo) :
    countDefaults (mapModelsAux false data) = 0 := by
  induction data with
  | nil => rfl
  | cons mi rest ih =>
    simpa [mapModelsAux, countDefaults, recordToPreset, List.filter_cons] using ih

theorem countDefaults_mapModels (data : List ModelInfo) (h : data ≠ []) :
    countDefaults (mapModels data) = 1 := by
  cases data with
  | nil => exact absurd rfl h
  | cons mi rest =>
    simp [mapModels, mapModelsAux, countDefaults, recordToPreset, List.filter_cons]
    have := countDefaults_mapModelsAux_false rest
    simpa [countDefaults] using this

theorem mapModels_eq_nil_iff (data : List ModelInfo) :
    mapModels data = [] ↔ data = [] := by
  cases data <;> simp [mapModels, mapModelsAux]

theorem map_id_mapModelsAux (isDef : Bool) (data : List ModelInfo) :
    (mapModelsAux isDef data).map (·.id) = data.map (·.litellm_params.model) := by
  induction data generalizing isDef with
  | nil => rfl
  | cons mi rest ih => simp [mapModelsAux, recordToPreset, ih]

/-- Inversion of the fetch: a successful fetch means the transport
succeeded, the status was a success code, the body parsed, and the result
is the mapped record list. -/
theorem fetch_ok_inv (transport : Transport) (base_url access_token : String)
    (ps : List ModelPreset)
    (h : fetch_oracle_code_assist_models transport base_url access_token = .ok ps) :
    ∃ response r,
      transport (trimEndSlashes base_url ++ "/v1/model/info") access_token = .ok response
      ∧ isSuccess response.status = true
      ∧ parseModelInfoResponse response.body = .ok r
      ∧ ps = mapModels r.data := by
  simp only [fetch_oracle_code_assist_models] at h
  cases ht : transport (trimEndSlashes base_url ++ "/v1/model/info") access_token with
  | error e => simp [ht] at h
  | ok response =>
    rw [ht] at h
    cases hs : isSuccess response.status with
    | false => simp [hs] at h
    | true =>
      simp only [hs, Bool.true_eq_false, if_false] at h
      cases hp : parseModelInfoResponse response.body with
      | error e => simp [hp] at h
      | ok r =>
        rw [hp] at h
        simp only [Except.ok.injEq] at h
        exact ⟨response, r, rfl, hs, hp, h.symm⟩

/-! ### Claim theorems -/

/-- C1: in every catalog returned by the three operations — the static
catalog constant, the sync and async entry points on the first-party
(non-OCA) path, and the remote mapping on any successful fetch with a
non-empty record list — exactly one `ModelPreset` has `is_default = true`
(for the remote path because the first mapped record is marked default and
all later ones are not). -/
theorem C1_exactly_one_default :
    countDefaults PRESETS = 1
    ∧ (∀ (auth : Option AuthMode) (ps : List ModelPreset),
        builtin_model_presets_sync auth = some ps → countDefaults ps = 1)
    ∧ (∀ (transport : Transport) (auth : Option AuthMode)
        (base tok : Option String) (ps : List ModelPreset),
        auth ≠ some AuthMode.OCA →
        builtin_model_presets transport auth base tok = .ok ps →
        countDefaults ps = 1)
    ∧ (∀ (transport : Transport) (base tok : String) (ps : List ModelPreset),
        fetch_oracle_code_assist_models transport base tok = .ok ps →
        ps ≠ [] → countDefaults ps = 1) := by
  refine ⟨rfl, ?_, ?_, ?_⟩
  · intro auth ps h
    by_cases ha : auth = some AuthMode.OCA
    · simp [builtin_model_presets_sync, ha] at h
    · simp [builtin_model_presets_sync, ha] at h
      subst h
      rfl
  · intro transport auth base tok ps ha h
    simp [builtin_model_presets, ha] at h
    subst h
    rfl
  · intro transport base tok ps h hne
    obtain ⟨response, r, -, -, -, hps⟩ := fetch_ok_inv transport base tok ps h
    subst hps
    exact countDefaults_mapModels r.data
      (fun hd => hne ((mapModels_eq_nil_iff r.data).mpr hd))

/-- Witness for C1 at concrete inputs: the blocking entry point with no
auth mode, and a fetch against a transport answering 200 with the
two-field registry body. -/
theorem C1_exactly_one_default_witness :
    countDefaults PRESETS = 1
    ∧ countDefaults [{ id := "foo-backend", model := "foo-backend",
                       display_name := "foo", description := "bar",
                       default_reasoning_effort := none,
                       supported_reasoning_efforts := [],
                       is_default := true }] = 1 :=
  ⟨C1_exactly_one_default.2.1 none PRESETS rfl,
   C1_exactly_one_default.2.2.2
     (fun _ _ => .ok { status := 200, body := c2FullResponse }) "" "" _
     rfl (by simp)⟩

/-- C2 as stated is false: the literal three-field record is rejected
because the serde schema also requires `litellm_params.max_tokens` — the
first error reported is the (equally required) `model_info.context_window`
field, which the record also lacks. -/
theorem C2_counterexample :
    parseAndMap c2RawResponse = .error "missing field context_window" := by rfl

/-- C2 (amended): once the two schema-required integer fields
`litellm_params.max_tokens` and `model_info.context_window` are added to
the record, parsing succeeds and yields exactly one preset with
`id = model = "foo-backend"`, `display_name = "foo"`,
`description = "bar"`, `is_default = true` and no reasoning-effort
metadata. -/
theorem C2_roundtrip :
    parseAndMap c2FullResponse = .ok [{ id := "foo-backend",
                                        model := "foo-backend",
                                        display_name := "foo",
                                        description := "bar",
                                        default_reasoning_effort := none,
                                        supported_reasoning_efforts := [],
                                        is_default := true }] := by rfl

/-- C3 as stated is false: `c3Response` provides every field the claim
lists as required (the `data` list, the record's `model_name`, the
record's backend slug) with the right types, yet parsing fails, because
`litellm_params.max_tokens` is also required by the schema. -/
theorem C3_counterexample :
    claimRequiredOk c3Response = true
    ∧ exOk (parseModelInfoResponse c3Response) = false := ⟨rfl, rfl⟩

/-- C3 (amended): parsing succeeds exactly on well-formed responses, where
well-formedness also demands, per record, the `litellm_params` object with
an integer `max_tokens` and the `model_info` object with an integer
`context_window`, and each optional field, when present, must be `null` or
a string; fields not listed in the schema are never inspected, hence
ignored. -/
theorem C3_parse_iff_wellformed :
    ∀ j : Json, exOk (parseModelInfoResponse j) = wellFormedResponse j :=
  fun j => exOk_parseModelInfoResponse j

/-- C4: the blocking entry point panics (modelled as `none`) exactly on
`some OCA`, and returns the static `PRESETS` list unchanged for every
other auth mode. -/
theorem C4_sync_panics_only_on_oca :
    ∀ auth : Option AuthMode,
      (auth = some AuthMode.OCA → builtin_model_presets_sync auth = none)
      ∧ (auth ≠ some AuthMode.OCA → builtin_model_presets_sync auth = some PRESETS) := by
  intro auth
  constructor
  · intro h
    simp [builtin_model_presets_sync, h]
  · intro h
    simp [builtin_model_presets_sync, h]

/-- Witness for C4: `some OCA` panics; `some ChatGPT` returns the static
catalog. -/
theorem C4_sync_panics_only_on_oca_witness :
    builtin_model_presets_sync (some AuthMode.OCA) = none
    ∧ builtin_model_presets_sync (some AuthMode.ChatGPT) = some PRESETS :=
  ⟨(C4_sync_panics_only_on_oca (some AuthMode.OCA)).1 rfl,
   (C4_sync_panics_only_on_oca (some AuthMode.ChatGPT)).2 (by decide)⟩

/-- C5: for every non-OCA auth mode, and all base-url / token arguments
and transports, the async entry point returns `Ok` of exactly the catalog
the blocking path returns (the static `PRESETS`), never invoking the
remote fetch (the result is independent of the transport). -/
theorem C5_async_first_party_static :
    ∀ (transport : Transport) (auth : Option AuthMode) (base tok : Option String),
      auth ≠ some AuthMode.OCA →
      builtin_model_presets transport auth base tok = .ok PRESETS
      ∧ builtin_model_presets_sync auth = some PRESETS := by
  intro transport auth base tok h
  constructor
  · simp [builtin_model_presets, h]
  · simp [builtin_model_presets_sync, h]

/-- Witness for C5: an `ApiKey` caller with a transport that always
fails still gets the static catalog. -/
theorem C5_async_first_party_static_witness :
    builtin_model_presets (fun _ _ => .error "network down")
      (some AuthMode.ApiKey) none (some "tok") = .ok PRESETS :=
  (C5_async_first_party_static (fun _ _ => .error "network down")
    (some AuthMode.ApiKey) none (some "tok") (by decide)).1

/-- C6: mapping a successfully parsed response with N records yields N
presets in record order: the preset at index i takes both `id` and `model`
from record i's backend slug, `display_name` from its model name,
`description` from its optional description (empty if absent), always has
no reasoning-effort metadata, and is flagged default exactly when i = 0;
an empty record list yields an empty catalog. -/
theorem C6_mapping_shape :
    mapModels [] = []
    ∧ ∀ data : List ModelInfo,
        (mapModels data).length = data.length
        ∧ ∀ (i : Nat) (mi : ModelInfo), data[i]? = some mi →
            (mapModels data)[i]? = some
              { id := mi.litellm_params.model,
                model := mi.litellm_params.model,
                display_name := mi.model_name,
                description := mi.model_info.description.getD "",
                default_reasoning_effort := none,
                supported_reasoning_efforts := [],
                is_default := decide (i = 0) } := by
  refine ⟨rfl, fun data => ⟨length_mapModelsAux true data, ?_⟩⟩
  intro i mi h
  rw [mapModels, getElem?_mapModelsAux, h]
  simp [recordToPreset]

/-- Witness for C6 on the one-record list `[dupRecord]`. -/
theorem C6_mapping_shape_witness :
    (mapModels [dupRecord]).length = 1
    ∧ (mapModels [dupRecord])[0]? = some
        { id := "x", model := "x", display_name := "x-name", description := "",
          default_reasoning_effort := none, supported_reasoning_efforts := [],
          is_default := true } :=
  ⟨((C6_mapping_shape.2) [dupRecord]).1,
   ((C6_mapping_shape.2) [dupRecord]).2 0 dupRecord rfl⟩

/-- C7: whenever the transport answers with a non-success status, the
fetch fails with an error reporting that status, and the response body is
never parsed: the outcome is the same for every body whatsoever. -/
theorem C7_http_error_no_parse :
    ∀ (base tok : String) (status : Nat) (body : Json),
      isSuccess status = false →
      fetch_oracle_code_assist_models
          (fun _ _ => .ok { status := status, body := body }) base tok
        = .error ("API request failed with status: " ++ toString status) := by
  intro base tok status body h
  simp [fetch_oracle_code_assist_models, h]

/-- Witness for C7: a 401 response whose body is not even an object still
yields exactly the HTTP-status error. -/
theorem C7_http_error_no_parse_witness :
    fetch_oracle_code_assist_models
        (fun _ _ => .ok { status := 401, body := Json.null }) "https://h" "t"
      = .error ("API request failed with status: " ++ toString 401) :=
  C7_http_error_no_parse "https://h" "t" 401 Json.null (by decide)

/-- C8: every static preset whose `default_reasoning_effort` is set lists
that effort among its `supported_reasoning_efforts`. -/
theorem C8_default_effort_supported :
    ∀ p ∈ PRESETS, ∀ e : ReasoningEffort,
      p.default_reasoning_effort = some e →
      e ∈ p.supported_reasoning_efforts.map (·.effort) := by
  decide

/-- Witness for C8 at the first static preset, whose default effort is
`Medium`. -/
theorem C8_default_effort_supported_witness :
    ReasoningEffort.Medium ∈
      (PRESETS.get ⟨0, by decide⟩).supported_reasoning_efforts.map (·.effort) :=
  C8_default_effort_supported (PRESETS.get ⟨0, by decide⟩) (by decide)
    ReasoningEffort.Medium rfl

/-- C9 as stated is false: two records sharing the backend slug `"x"` map
to a catalog whose ids are `["x", "x"]`, not pairwise distinct. -/
theorem C9_counterexample :
    ¬ ((mapModels [dupRecord, dupRecord]).map (·.id)).Nodup := by decide

/-- C9 (amended): the static catalog's ids are pairwise distinct, and a
remotely mapped catalog's ids are pairwise distinct whenever the records'
backend slugs are (the ids are exactly the slugs, so duplicated slugs
yield duplicated ids). -/
theorem C9_ids_distinct :
    (PRESETS.map (·.id)).Nodup
    ∧ ∀ data : List ModelInfo,
        (data.map (·.litellm_params.model)).Nodup →
        ((mapModels data).map (·.id)).Nodup := by
  constructor
  · decide
  · intro data h
    rw [mapModels, map_id_mapModelsAux]
    exact h

/-- Witness for C9 on the singleton record list. -/
theorem C9_ids_distinct_witness :
    (([dupRecord].map (·.litellm_params.model)).Nodup)
    ∧ ((mapModels [dupRecord]).map (·.id)).Nodup :=
  ⟨by decide, C9_ids_distinct.2 [dupRecord] (by decide)⟩

/-- C10: with no auth mode at all (`none`), both entry points behave as on
the first-party path: the blocking one returns the static catalog without
panicking, and the async one returns `Ok` of the static catalog for every
transport and every base-url / token arguments. -/
theorem C10_none_is_first_party :
    builtin_model_presets_sync none = some PRESETS
    ∧ ∀ (transport : Transport) (base tok : Option String),
        builtin_model_presets transport none base tok = .ok PRESETS := by
  exact ⟨rfl, fun transport base tok => rfl⟩

end ModelPresets
